import Mathlib

/-!
Verification development for the similarity-guided synthesis-recipe discovery
engine (files src/search_api.py, src/schema.py, src/agent.py,
src/recursive_synthesis.py).

The embedding is shallow: numeric values are rationals, Python dictionaries
whose key set matters are association lists, fallible external calls return
Except values, and the recursive traversal is a fuel-indexed Lean function
whose fuel mirrors the max-depth guard of the source.  Python keyword-argument
binding (which raises TypeError on an unexpected keyword before the callee
body runs) is modelled explicitly, because two call sites in agent.py pass
keywords their callees do not accept.
-/

namespace SynthModel

/-!
Rational arithmetic.  The standard ℚ operations are marked irreducible by the
library, which blocks kernel evaluation of concrete runs; the model therefore
computes with the wrappers below, which go through Rat.divInt and reduce in
the kernel.  The bridge lemmas right after prove each wrapper equal to the
standard operation, so theorems are stated and proved against ordinary
rational arithmetic.
-/

/-- Kernel-computable rational addition; equals (a + b). -/
def qadd (a b : ℚ) : ℚ :=
  Rat.divInt (a.num * b.den + b.num * a.den) (a.den * b.den)

/-- Kernel-computable rational subtraction; equals (a - b). -/
def qsub (a b : ℚ) : ℚ :=
  Rat.divInt (a.num * b.den - b.num * a.den) (a.den * b.den)

/-- Kernel-computable rational multiplication; equals (a * b). -/
def qmul (a b : ℚ) : ℚ := Rat.divInt (a.num * b.num) (a.den * b.den)

/-- Kernel-computable rational division; equals (a / b). -/
def qdiv (a b : ℚ) : ℚ := Rat.divInt (a.num * b.den) (a.den * b.num)

/-- Kernel-computable list sum; equals List.sum. -/
def qsum (l : List ℚ) : ℚ := l.foldr qadd 0

/-- Python-level errors that the modelled code can raise or catch.
TypeError arises from keyword-argument mismatch; lookupFailure stands for any
backend failure of the similarity or recipe lookups (the traversal catches
every exception alike). -/
inductive PyError where
  | typeError
  | valueError
  | lookupFailure
deriving DecidableEq

/-- A Python call with keyword arguments binds keywords before running the
body: every keyword must name a declared parameter.  True iff all keywords
are accepted. -/
def acceptsKwargs (params kwargs : List String) : Bool :=
  kwargs.all (fun k => params.contains k)

/-- Python call semantics for keyword arguments: if some keyword is not a
declared parameter the call raises TypeError without running the body
(modelled by the value `run` that the body would have produced). -/
def pyCall {A : Type} (params kwargs : List String) (run : Except PyError A) :
    Except PyError A :=
  if acceptsKwargs params kwargs then run else .error .typeError

/-- Keyword parameters of SearchAPI.__init__ (src/search_api.py line 16):
`def __init__(self, input_type, n_neighbors=5)`. -/
def SearchAPI_init_params : List String := ["input_type", "n_neighbors"]

/-- Keyword parameters of SearchAPI.query (src/search_api.py line 57):
`def query(self, input_data)` — there is no per-call neighbor count. -/
def SearchAPI_query_params : List String := ["input_data"]

/-- SynthesisAgent.__init__ (src/agent.py lines 18-20) constructs
`SearchAPI(input_type=..., max_neighbors=100)`; `run` is the construction the
body would have performed had the keywords bound. -/
def SynthesisAgent_init_call {A : Type} (run : Except PyError A) : Except PyError A :=
  pyCall SearchAPI_init_params ["input_type", "max_neighbors"] run

/-- Values stored in the result dictionaries of SearchAPI.query. -/
inductive PyVal where
  | s (v : String)
  | q (v : ℚ)
deriving DecidableEq

/-- A Python dict observed through its keys, as an association list. -/
def PyDict := List (String × PyVal)

instance : DecidableEq PyDict := by
  unfold PyDict
  infer_instance

instance {E A : Type} [DecidableEq E] [DecidableEq A] :
    DecidableEq (Except E A) := fun a b =>
  match a, b with
  | .ok x, .ok y =>
    if h : x = y then isTrue (by rw [h]) else isFalse (by simp [h])
  | .error x, .error y =>
    if h : x = y then isTrue (by rw [h]) else isFalse (by simp [h])
  | .ok _, .error _ => isFalse (by simp)
  | .error _, .ok _ => isFalse (by simp)

/-- One row of the precomputed reference dataset loaded by
SearchAPI._load_mp_data (material_ids, formulas, features arrays). -/
structure CorpusEntry where
  material_id : String
  formula : String
  features : List ℚ
deriving DecidableEq

/-- The state a constructed SearchAPI holds: the modality-specific featurizer
(MaterialsEmbedding.get_embedding, an external model, carried abstractly as a
function), the StandardScaler statistics fitted once over the corpus at
construction (sklearn divides by the square root of the per-dimension
variance, an irrational number, so the fitted mean/scale pair is carried as
data), the corpus, and the n_neighbors fixed at construction. -/
structure SearchAPIModel where
  featurize : String → List ℚ
  mean : List ℚ
  scale : List ℚ
  corpus : List CorpusEntry
  n_neighbors : ℕ

/-- StandardScaler.transform: per-dimension (x - mean) / scale. -/
def standardize (mean scale x : List ℚ) : List ℚ :=
  (x.zip (mean.zip scale)).map (fun p => qdiv (qsub p.1 p.2.1) p.2.2)

/-- Squared Euclidean distance.  sklearn reports the Euclidean distance
(the square root of this); the square root is strictly monotone on
nonnegative inputs, so orderings by the reported distance and by this value
coincide, and the distance slot below carries this value. -/
def sqDist (u v : List ℚ) : ℚ :=
  qsum ((u.zip v).map (fun p => qmul (qsub p.1 p.2) (qsub p.1 p.2)))

/-- Ascending order on distance-annotated corpus entries. -/
def distAsc (a b : CorpusEntry × ℚ) : Prop := a.2 ≤ b.2

instance : DecidableRel distAsc := fun a b => inferInstanceAs (Decidable (a.2 ≤ b.2))

instance : IsTotal (CorpusEntry × ℚ) distAsc := ⟨fun a b => le_total a.2 b.2⟩

instance : IsTrans (CorpusEntry × ℚ) distAsc := ⟨fun _ _ _ => le_trans⟩

/-- The corpus entries paired with their distance to the standardized query
embedding, sorted ascending by distance (NearestNeighbors.kneighbors returns
the nearest entries in ascending distance order, with a deterministic tie
order; a stable sort by a total preorder is unique, so the stable
insertionSort models it exactly). -/
def SearchAPIModel.ranked (api : SearchAPIModel) (input_data : String) :
    List (CorpusEntry × ℚ) :=
  let x := standardize api.mean api.scale (api.featurize input_data)
  (api.corpus.map
      (fun e => (e, sqDist x (standardize api.mean api.scale e.features)))).insertionSort
    distAsc

/-- SearchAPI.query (src/search_api.py lines 57-80): embed the input,
standardize it with the corpus-fit scaler, and look up the n_neighbors
(fixed at construction) nearest corpus entries.  kneighbors raises
ValueError when that count is 0 or exceeds the corpus size; otherwise the
result arrays have shape (1, n_neighbors), and the squeeze at lines 61-62
produces 0-d arrays when n_neighbors = 1, so the zip at line 66 raises
TypeError (iteration over a 0-d array) there.  Only for counts from 2 up to
the corpus size does query return a list, one dict per neighbor, holding
exactly the keys material_id, formula and distance. -/
def SearchAPIModel.query (api : SearchAPIModel) (input_data : String) :
    Except PyError (List PyDict) :=
  if api.n_neighbors = 0 ∨ api.corpus.length < api.n_neighbors then
    .error .valueError
  else if api.n_neighbors = 1 then
    .error .typeError
  else
    .ok (((api.ranked input_data).take api.n_neighbors).map
      (fun p =>
        [("material_id", PyVal.s p.1.material_id),
         ("formula", PyVal.s p.1.formula),
         ("distance", PyVal.q p.2)]))

/-- The neighbor record as consumed by the recursive traversal
(recursive_synthesis.py reads .material_id, .formula, .confidence and
.distance off each element returned by the similarity lookup). -/
structure AgentNeighbor where
  material_id : String
  formula : String
  distance : ℚ
  confidence : ℚ
deriving DecidableEq

/-- RecipeCandidate (recursive_synthesis.py lines 21-30).  Recipes are opaque
records; the engine only counts and forwards them, so they are carried as
strings.  The score attribute is assigned later by _synthesize_results (the
Python dataclass gains it dynamically at that point); before that it holds 0
and is never read. -/
structure RecipeCandidate where
  material_id : String
  formula : String
  recipe : String
  confidence : ℚ
  distance : ℚ
  path_length : ℕ
  reasoning : String
  score : ℚ
deriving DecidableEq, Inhabited

/-- SearchNode (recursive_synthesis.py lines 33-51).  The parent
back-reference exists only to reconstruct the root-to-node path string
(get_path); the node carries that path directly, one rendered entry
per ancestor, root first. -/
structure SearchNode where
  material_id : String
  formula : String
  confidence : ℚ
  distance : ℚ
  depth : ℕ
  path : List String
deriving DecidableEq

/-- The rendered path element for one node, as built by
SearchNode.get_path. -/
def pathEntryOf (formula material_id : String) : String :=
  formula ++ " (" ++ material_id ++ ")"

/-- The search-scoped mutable state of RecursiveSynthesisSearch: the visited
material-id set (a list to which ids are only ever added while absent) and
the growing candidate list. -/
structure SearchState where
  visited : List String
  recipe_candidates : List RecipeCandidate
deriving DecidableEq

/-- The tunables of RecursiveSynthesisSearch.__init__. -/
structure Config where
  max_depth : ℕ
  min_confidence : ℚ
  confidence_decay : ℚ
  max_neighbors_per_level : ℕ

/-- The default tunables: max_depth=3, min_confidence=0.7,
confidence_decay=0.85, max_neighbors_per_level=10. -/
def defaultConfig : Config :=
  { max_depth := 3, min_confidence := Rat.divInt 7 10,
    confidence_decay := Rat.divInt 17 20, max_neighbors_per_level := 10 }

/-- One entry of the traversal log, recorded at every entry into
_recursive_search (mirroring the verbose progress printing): which node was
reached, at which depth, with which admission threshold, and whether the call
got past the three termination guards (max depth, low confidence, already
visited) and explored the node. -/
structure TraceEntry where
  material_id : String
  formula : String
  depth : ℕ
  threshold : ℚ
  explored : Bool
deriving DecidableEq, Inhabited

/-- _check_recipes (recursive_synthesis.py lines 226-256): look up recipes
for the node formula; on any failure the exception is caught and the state is
unchanged; otherwise up to 3 recipes each become a RecipeCandidate carrying
the node confidence, distance, depth as path_length, and the reconstructed
path string. -/
def checkRecipes (recipeLookup : String → Except PyError (List String))
    (node : SearchNode) (st : SearchState) : SearchState :=
  match recipeLookup node.formula with
  | .error _ => st
  | .ok recipes =>
    if 0 < recipes.length then
      { st with
        recipe_candidates := st.recipe_candidates ++
          (recipes.take 3).map (fun r =>
            { material_id := node.material_id
              formula := node.formula
              recipe := r
              confidence := node.confidence
              distance := node.distance
              path_length := node.depth
              reasoning := "Found via path: " ++ String.intercalate " → " node.path
              score := 0 }) }
    else st

/-- The trace record for one entry into _recursive_search. -/
def entryOf (node : SearchNode) (threshold : ℚ) (explored : Bool) : TraceEntry :=
  { material_id := node.material_id, formula := node.formula,
    depth := node.depth, threshold := threshold, explored := explored }

/-- Lines 172-181 of recursive_synthesis.py: a non-root node is marked
visited and its recipes are checked; the root (synthetic id target) is
neither marked nor checked. -/
def markAndCheck (recipeLookup : String → Except PyError (List String))
    (node : SearchNode) (st : SearchState) : SearchState :=
  if node.material_id ≠ "target" then
    checkRecipes recipeLookup node
      { st with visited := node.material_id :: st.visited }
  else st

/-- Lines 194-202: keep the neighbors whose confidence reaches
threshold * confidence_decay and that are not already visited, capped at
max_neighbors_per_level. -/
def filteredNeighbors (cfg : Config) (confidence_threshold : ℚ)
    (st : SearchState) (neighbors : List AgentNeighbor) : List AgentNeighbor :=
  (neighbors.filter (fun n =>
    decide (qmul confidence_threshold cfg.confidence_decay ≤ n.confidence ∧
      n.material_id ∉ st.visited))).take cfg.max_neighbors_per_level

/-- The child SearchNode built for a surviving neighbor at lines 209-217:
depth one more than the parent and the parent path extended by the neighbor
entry. -/
def childOf (node : SearchNode) (nb : AgentNeighbor) : SearchNode :=
  { material_id := nb.material_id
    formula := nb.formula
    confidence := nb.confidence
    distance := nb.distance
    depth := node.depth + 1
    path := node.path ++ [pathEntryOf nb.formula nb.material_id] }

/-- The shape of the for-loop at lines 208-224: run F on each list element in
order, threading the state left to right and concatenating the traces. -/
def accRun (F : AgentNeighbor → SearchState → SearchState × List TraceEntry) :
    List AgentNeighbor → SearchState → SearchState × List TraceEntry
  | [], st => (st, [])
  | nb :: rest, st =>
    ((accRun F rest (F nb st).1).1, (F nb st).2 ++ (accRun F rest (F nb st).1).2)

/-- _recursive_search (recursive_synthesis.py lines 142-224), fuel-indexed.
The three guards and the branch bodies follow the source line by line; the
second component is the traversal log.  The fuel only bounds the recursion
depth of the Lean function; the entry point supplies fuel max_depth, which
the depth guard makes sufficient, so the fuel cut-off in the zero case is
never taken from the entry point. -/
def recursiveSearch (cfg : Config)
    (similarityLookup : String → ℕ → Except PyError (List AgentNeighbor))
    (recipeLookup : String → Except PyError (List String)) :
    ℕ → SearchNode → ℕ → ℚ → SearchState → SearchState × List TraceEntry
  | fuel, node, n_neighbors, confidence_threshold, st =>
    if cfg.max_depth ≤ node.depth then
      (st, [entryOf node confidence_threshold false])
    else if node.confidence < cfg.min_confidence then
      (st, [entryOf node confidence_threshold false])
    else if node.material_id ∈ st.visited ∧ node.material_id ≠ "target" then
      (st, [entryOf node confidence_threshold false])
    else
      match similarityLookup node.formula n_neighbors with
      | .error _ =>
        (markAndCheck recipeLookup node st, [entryOf node confidence_threshold true])
      | .ok neighbors =>
        match fuel with
        | 0 =>
          (markAndCheck recipeLookup node st, [entryOf node confidence_threshold true])
        | fuel1 + 1 =>
          ((accRun
              (fun nb s => recursiveSearch cfg similarityLookup recipeLookup fuel1
                (childOf node nb) (max 5 (n_neighbors / 2))
                (qmul confidence_threshold cfg.confidence_decay) s)
              (filteredNeighbors cfg confidence_threshold
                (markAndCheck recipeLookup node st) neighbors)
              (markAndCheck recipeLookup node st)).1,
            entryOf node confidence_threshold true ::
              (accRun
                (fun nb s => recursiveSearch cfg similarityLookup recipeLookup fuel1
                  (childOf node nb) (max 5 (n_neighbors / 2))
                  (qmul confidence_threshold cfg.confidence_decay) s)
                (filteredNeighbors cfg confidence_threshold
                  (markAndCheck recipeLookup node st) neighbors)
                (markAndCheck recipeLookup node st)).2)

/-- The search entry point (recursive_synthesis.py lines 100-140): reset the
state, build the depth-0 root with the synthetic id target and confidence
1.0, and run the traversal with initial threshold 1.0.  Returns the final
state together with the traversal log. -/
def searchRun (cfg : Config)
    (similarityLookup : String → ℕ → Except PyError (List AgentNeighbor))
    (recipeLookup : String → Except PyError (List String))
    (target_formula : String) (n_initial_neighbors : ℕ) :
    SearchState × List TraceEntry :=
  let root : SearchNode :=
    { material_id := "target", formula := target_formula, confidence := 1,
      distance := 0, depth := 0, path := [pathEntryOf target_formula "target"] }
  recursiveSearch cfg similarityLookup recipeLookup cfg.max_depth root
    n_initial_neighbors 1 { visited := [], recipe_candidates := [] }

/-- The ids of nodes that were actually explored (marked visited), with the
synthetic root id excluded, in traversal order. -/
def exploredIds (tr : List TraceEntry) : List String :=
  (tr.filter (fun e => e.explored && e.material_id != "target")).map
    (fun e => e.material_id)

/-- The scoring pass of _synthesize_results (lines 278-280): every candidate
receives score = confidence / (1 + 0.2 * path_length). -/
def scoreCandidates (cands : List RecipeCandidate) : List RecipeCandidate :=
  cands.map (fun c =>
    { c with
      score := qdiv c.confidence
        (qadd 1 (qmul (Rat.divInt 1 5) (c.path_length : ℚ))) })

/-- Descending order on scored candidates. -/
def scoreDesc (a b : RecipeCandidate) : Prop := b.score ≤ a.score

instance : DecidableRel scoreDesc := fun a b => inferInstanceAs (Decidable (b.score ≤ a.score))

instance : IsTotal RecipeCandidate scoreDesc := ⟨fun a b => le_total b.score a.score⟩

instance : IsTrans RecipeCandidate scoreDesc := ⟨fun _ _ _ h1 h2 => le_trans h2 h1⟩

/-- The in-place sort of line 282: stable sort, descending by score (Python
list.sort with reverse=True is stable, and a stable sort by a total preorder
is unique, so the stable insertionSort models it exactly). -/
def candidatesSorted (cands : List RecipeCandidate) : List RecipeCandidate :=
  (scoreCandidates cands).insertionSort scoreDesc

/-- The key order of the defaultdict built at lines 285-287: formulas in
order of first occurrence in the sorted candidate list (dict insertion
order). -/
def keysOf : List RecipeCandidate → List String
  | [] => []
  | c :: cs => c.formula :: (keysOf cs).filter (fun k => k != c.formula)

/-- One entry of the stoichiometry_changes mapping built at lines 342-351. -/
structure StoichChange where
  target : ℚ
  source : ℚ
  change_percent : ℚ
deriving DecidableEq

/-- The adaptation-strategy dictionary returned by _calculate_adaptation. -/
structure Adaptation where
  added_elements : List String
  removed_elements : List String
  common_elements : List String
  stoichiometry_changes : List (String × StoichChange)
  similarity_score : ℚ
deriving DecidableEq, Inhabited

/-- A parsed pymatgen Composition: element symbols with their amounts.  The
source parses formula strings through pymatgen (an external collaborator);
the embedding receives the parsed composition. -/
def Comp := List (String × ℚ)

/-- Composition.num_atoms: the total of all amounts. -/
def numAtoms (comp : Comp) : ℚ := qsum (comp.map (fun p => p.2))

/-- Composition.get_atomic_fraction: amount of the element over the total. -/
def atomicFraction (comp : Comp) (el : String) : ℚ :=
  qdiv (qsum ((comp.filter (fun p => p.1 == el)).map (fun p => p.2))) (numAtoms comp)

/-- _calculate_adaptation (recursive_synthesis.py lines 319-359): element-set
differences, per-common-element stoichiometric change, and
similarity_score = |common| / max(|target elements|, |source elements|).
pymatgen composition element sets are modelled as the key lists of the parsed
compositions (pymatgen keys are duplicate-free). -/
def calculateAdaptation (target_comp source_comp : Comp) : Adaptation :=
  let target_elements : List String := target_comp.map (fun p => p.1)
  let source_elements : List String := source_comp.map (fun p => p.1)
  let added := target_elements.filter (fun e => decide (e ∉ source_elements))
  let removed := source_elements.filter (fun e => decide (e ∉ target_elements))
  let common := target_elements.filter (fun e => decide (e ∈ source_elements))
  let stoich := common.map (fun el =>
    let target_ratio := atomicFraction target_comp el
    let source_ratio := atomicFraction source_comp el
    let change :=
      if 0 < source_ratio then qdiv (qsub target_ratio source_ratio) source_ratio
      else 0
    (el, { target := target_ratio, source := source_ratio,
           change_percent := qmul change 100 : StoichChange }))
  { added_elements := added
    removed_elements := removed
    common_elements := common
    stoichiometry_changes := stoich
    similarity_score :=
      qdiv (common.length : ℚ)
        ((max target_elements.length source_elements.length : ℕ) : ℚ) }

/-- One recommendation dictionary built at lines 297-307. -/
structure Recommendation where
  source_material : String
  material_id : String
  confidence : ℚ
  distance : ℚ
  path_length : ℕ
  score : ℚ
  num_recipes : ℕ
  adaptation_strategy : Adaptation
  reasoning : String
deriving DecidableEq, Inhabited

/-- The best-guess dictionary of _generate_best_guess (lines 361-408).
The key_considerations field is presentation-only string formatting of
fields already present here and is not carried. -/
structure BestGuess where
  approach : String
  confidence_level : String
  primary_reference : String
  adaptation_required : Adaptation
  recommended_validation : List String
deriving DecidableEq

/-- _generate_best_guess: none models the {"message": "No recommendations
available"} dictionary returned for an empty recommendation list; otherwise
the approach and confidence level are classified by thresholding the top
recommendation confidence at 0.95, 0.85 and 0.75. -/
def generateBestGuess (recommendations : List Recommendation) : Option BestGuess :=
  match recommendations with
  | [] => none
  | best :: _ =>
    let ac : String × String :=
      if Rat.divInt 19 20 < best.confidence then ("direct_adaptation", "very_high")
      else if Rat.divInt 17 20 < best.confidence then ("minor_modification", "high")
      else if Rat.divInt 3 4 < best.confidence then ("guided_exploration", "moderate")
      else ("experimental_optimization", "exploratory")
    some
      { approach := ac.1
        confidence_level := ac.2
        primary_reference := best.source_material
        adaptation_required := best.adaptation_strategy
        recommended_validation :=
          ["Start with small-scale test synthesis",
           "Verify phase purity with XRD",
           "Adjust stoichiometry based on initial results",
           "Consider alternative precursors for added elements"] }

/-- The result dictionary of search.  A none field models a key that the
source dictionary does not contain on that branch; the no-recipes branch of
_synthesize_results does contain a recommendations key holding an empty
list. -/
structure SearchResult where
  status : String
  target : String
  visited_materials : ℕ
  message : Option String
  total_candidates : Option ℕ
  unique_materials_with_recipes : Option ℕ
  recommendations : Option (List Recommendation)
  best_guess : Option (Option BestGuess)
deriving DecidableEq

/-- _synthesize_results (recursive_synthesis.py lines 258-317).  parse is
pymatgen Composition parsing of a formula string (external collaborator). -/
def synthesizeResults (parse : String → Comp) (st : SearchState)
    (target_formula : String) : SearchResult :=
  if st.recipe_candidates.isEmpty then
    { status := "no_recipes_found"
      target := target_formula
      visited_materials := st.visited.length
      message := some "No synthesis recipes found in recursive search"
      total_candidates := none
      unique_materials_with_recipes := none
      recommendations := some []
      best_guess := none }
  else
    let sorted := candidatesSorted st.recipe_candidates
    let keys := keysOf sorted
    let recommendations := (keys.take 5).map (fun k =>
      let group := sorted.filter (fun c => c.formula == k)
      let best := group.headI
      { source_material := k
        material_id := best.material_id
        confidence := best.confidence
        distance := best.distance
        path_length := best.path_length
        score := best.score
        num_recipes := group.length
        adaptation_strategy := calculateAdaptation (parse target_formula) (parse k)
        reasoning := best.reasoning : Recommendation })
    { status := "success"
      target := target_formula
      visited_materials := st.visited.length
      message := none
      total_candidates := some st.recipe_candidates.length
      unique_materials_with_recipes := some keys.length
      recommendations := some recommendations
      best_guess := some (generateBestGuess recommendations) }

/-- The full search entry point: traversal followed by aggregation. -/
def search (parse : String → Comp) (cfg : Config)
    (similarityLookup : String → ℕ → Except PyError (List AgentNeighbor))
    (recipeLookup : String → Except PyError (List String))
    (target_formula : String) (n_initial_neighbors : ℕ) : SearchResult :=
  synthesizeResults parse
    (searchRun cfg similarityLookup recipeLookup target_formula n_initial_neighbors).1
    target_formula

/-- The visited-set bookkeeping contract of one traversal step starting from
state st: the final visited set is the initial one extended by exactly the
ids explored in the step trace, those ids are pairwise distinct, and none of
them was visited before the step. -/
def Inv (st : SearchState) (r : SearchState × List TraceEntry) : Prop :=
  (∀ x, x ∈ r.1.visited ↔ x ∈ st.visited ∨ x ∈ exploredIds r.2) ∧
  (exploredIds r.2).Nodup ∧
  ∀ x ∈ exploredIds r.2, x ∉ st.visited

/-!
Concrete fixtures: small oracles and inputs used to run the model on closed
scenarios.
-/

/-- A similarity oracle returning one fixed neighbor for every formula. -/
def simOne : String → ℕ → Except PyError (List AgentNeighbor) :=
  fun _ _ => .ok [{ material_id := "mp-1", formula := "B",
                    distance := Rat.divInt 1 10, confidence := Rat.divInt 9 10 }]

/-- A recipe oracle that finds no recipes anywhere. -/
def recipesNone : String → Except PyError (List String) := fun _ => .ok []

/-- A trivial composition parser (one element A). -/
def parseA : String → Comp := fun _ => [("A", 1)]

/-- A similarity oracle with two first-level neighbors where the lookup for
the first neighbor formula B fails mid-traversal while its sibling C
succeeds. -/
def simSibling : String → ℕ → Except PyError (List AgentNeighbor) :=
  fun f _ =>
    if f = "T" then
      .ok [{ material_id := "mp-1", formula := "B",
             distance := Rat.divInt 1 10, confidence := Rat.divInt 9 10 },
           { material_id := "mp-2", formula := "C",
             distance := Rat.divInt 1 5, confidence := Rat.divInt 22 25 }]
    else if f = "B" then .error .lookupFailure
    else .ok []

/-- A recipe oracle that fails for B and every other formula except C, which
yields one recipe. -/
def recipesSibling : String → Except PyError (List String) :=
  fun f => if f = "C" then .ok ["recipeC"] else .error .lookupFailure

/-- A two-entry, one-dimensional SearchAPI reference index whose
construction-time count 2 stays within the corpus size and avoids the 0-d
squeeze, so the source really returns a result list here. -/
def c1api : SearchAPIModel :=
  { featurize := fun _ => [0], mean := [0], scale := [1],
    corpus := [{ material_id := "mp-1", formula := "A", features := [1] },
               { material_id := "mp-2", formula := "B", features := [2] }],
    n_neighbors := 2 }

/-- A one-entry index with the count fixed at 1: the configuration on which
the source's squeeze/zip raises TypeError instead of returning. -/
def c1apiSingle : SearchAPIModel :=
  { featurize := fun _ => [0], mean := [0], scale := [1],
    corpus := [{ material_id := "mp-1", formula := "A", features := [1] }],
    n_neighbors := 1 }

/-- A concrete traversal state with three collected candidates over two
source formulas, for exercising the aggregation. -/
def stAgg : SearchState :=
  { visited := ["mp-1", "mp-2", "mp-3"],
    recipe_candidates :=
      [{ material_id := "mp-1", formula := "A", recipe := "rA1",
         confidence := Rat.divInt 4 5, distance := Rat.divInt 1 10,
         path_length := 1, reasoning := "pA1", score := 0 },
       { material_id := "mp-2", formula := "B", recipe := "rB1",
         confidence := Rat.divInt 9 10, distance := Rat.divInt 1 5,
         path_length := 2, reasoning := "pB1", score := 0 },
       { material_id := "mp-3", formula := "A", recipe := "rA2",
         confidence := Rat.divInt 9 10, distance := Rat.divInt 3 10,
         path_length := 1, reasoning := "pA2", score := 0 }] }

/-!
Bridge lemmas: each kernel-computable arithmetic wrapper equals the standard
rational operation.
-/

lemma qadd_eq (a b : ℚ) : qadd a b = a + b := by
  unfold qadd
  rw [← Rat.divInt_add_divInt _ _ (by exact_mod_cast a.den_nz) (by exact_mod_cast b.den_nz)]
  rw [Rat.num_divInt_den, Rat.num_divInt_den]

lemma qsub_eq (a b : ℚ) : qsub a b = a - b := by
  unfold qsub
  rw [← Rat.divInt_sub_divInt _ _ (by exact_mod_cast a.den_nz) (by exact_mod_cast b.den_nz)]
  rw [Rat.num_divInt_den, Rat.num_divInt_den]

lemma qmul_eq (a b : ℚ) : qmul a b = a * b := by
  unfold qmul
  rw [← Rat.divInt_mul_divInt']
  rw [Rat.num_divInt_den, Rat.num_divInt_den]

lemma qdiv_eq (a b : ℚ) : qdiv a b = a / b := by
  unfold qdiv
  rw [← Rat.divInt_div_divInt]
  rw [Rat.num_divInt_den, Rat.num_divInt_den]

lemma qsum_eq (l : List ℚ) : qsum l = l.sum := by
  induction l with
  | nil => rfl
  | cons x xs ih => simp [qsum, qadd_eq, List.sum_cons] at ih ⊢; rw [ih]

/-!
Traversal bookkeeping lemmas.
-/

lemma checkRecipes_visited (rl : String → Except PyError (List String))
    (node : SearchNode) (st : SearchState) :
    (checkRecipes rl node st).visited = st.visited := by
  unfold checkRecipes
  cases rl node.formula with
  | error e => rfl
  | ok rs =>
    dsimp only
    split <;> rfl

lemma markAndCheck_visited (rl : String → Except PyError (List String))
    (node : SearchNode) (st : SearchState) :
    (markAndCheck rl node st).visited =
      if node.material_id = "target" then st.visited
      else node.material_id :: st.visited := by
  unfold markAndCheck
  by_cases h : node.material_id = "target" <;> simp [h, checkRecipes_visited]

lemma exploredIds_append (t1 t2 : List TraceEntry) :
    exploredIds (t1 ++ t2) = exploredIds t1 ++ exploredIds t2 := by
  simp [exploredIds, List.filter_append]

lemma exploredIds_guard (node : SearchNode) (thr : ℚ) :
    exploredIds [entryOf node thr false] = [] := rfl

lemma exploredIds_cons_true (node : SearchNode) (thr : ℚ) (tr : List TraceEntry) :
    exploredIds (entryOf node thr true :: tr) =
      if node.material_id = "target" then exploredIds tr
      else node.material_id :: exploredIds tr := by
  by_cases h : node.material_id = "target" <;>
    simp [exploredIds, entryOf, List.filter_cons, h]

lemma inv_nil (st : SearchState) : Inv st (st, []) := by
  simp [Inv, exploredIds]

lemma inv_guard (st : SearchState) (node : SearchNode) (thr : ℚ) :
    Inv st (st, [entryOf node thr false]) := by
  simp [Inv, exploredIds_guard]

lemma inv_comp {st : SearchState} {r1 r2 : SearchState × List TraceEntry}
    (h1 : Inv st r1) (h2 : Inv r1.1 r2) : Inv st (r2.1, r1.2 ++ r2.2) := by
  obtain ⟨m1, n1, d1⟩ := h1
  obtain ⟨m2, n2, d2⟩ := h2
  refine ⟨?_, ?_, ?_⟩
  · intro x
    have := m2 x
    have := m1 x
    rw [exploredIds_append]
    simp only [List.mem_append]
    tauto
  · rw [exploredIds_append, List.nodup_append]
    exact ⟨n1, n2, fun x hx1 hx2 => d2 x hx2 ((m1 x).2 (Or.inr hx1))⟩
  · intro x hx
    rw [exploredIds_append] at hx
    rcases List.mem_append.1 hx with h | h
    · exact d1 x h
    · intro hst
      exact d2 x h ((m1 x).2 (Or.inl hst))

lemma inv_explored {rl : String → Except PyError (List String)}
    {node : SearchNode} {thr : ℚ} {st : SearchState}
    {q : SearchState × List TraceEntry}
    (hg : node.material_id ∉ st.visited ∨ node.material_id = "target")
    (hq : Inv (markAndCheck rl node st) q) :
    Inv st (q.1, entryOf node thr true :: q.2) := by
  obtain ⟨mq, nq, dq⟩ := hq
  by_cases hid : node.material_id = "target"
  · have hms : markAndCheck rl node st = st := by simp [markAndCheck, hid]
    rw [hms] at mq dq
    refine ⟨?_, ?_, ?_⟩
    · intro x
      rw [exploredIds_cons_true, if_pos hid]
      exact mq x
    · rw [exploredIds_cons_true, if_pos hid]
      exact nq
    · intro x hx
      rw [exploredIds_cons_true, if_pos hid] at hx
      exact dq x hx
  · have hvis : (markAndCheck rl node st).visited = node.material_id :: st.visited := by
      rw [markAndCheck_visited, if_neg hid]
    have hnin : node.material_id ∉ st.visited := hg.resolve_right hid
    refine ⟨?_, ?_, ?_⟩
    · intro x
      rw [exploredIds_cons_true, if_neg hid]
      have := mq x
      rw [hvis] at this
      simp only [List.mem_cons] at this ⊢
      tauto
    · rw [exploredIds_cons_true, if_neg hid]
      refine List.nodup_cons.2 ⟨?_, nq⟩
      intro hmem
      have h := dq _ hmem
      rw [hvis] at h
      exact h (List.mem_cons_self _ _)
    · intro x hx
      rw [exploredIds_cons_true, if_neg hid] at hx
      rcases List.mem_cons.1 hx with rfl | h
      · exact hnin
      · intro hst
        have h2 := dq x h
        rw [hvis] at h2
        exact h2 (List.mem_cons_of_mem _ hst)

lemma accRun_inv
    (F : AgentNeighbor → SearchState → SearchState × List TraceEntry)
    (hF : ∀ nb s, Inv s (F nb s)) :
    ∀ (l : List AgentNeighbor) (st : SearchState), Inv st (accRun F l st) := by
  intro l
  induction l with
  | nil =>
    intro st
    rw [accRun]
    exact inv_nil st
  | cons nb rest ih =>
    intro st
    rw [accRun]
    exact inv_comp (hF nb st) (ih _)

lemma recursiveSearch_inv (cfg : Config)
    (sim : String → ℕ → Except PyError (List AgentNeighbor))
    (rl : String → Except PyError (List String)) :
    ∀ (fuel : ℕ) (node : SearchNode) (nNb : ℕ) (thr : ℚ) (st : SearchState),
      Inv st (recursiveSearch cfg sim rl fuel node nNb thr st) := by
  intro fuel
  induction fuel with
  | zero =>
    intro node nNb thr st
    rw [recursiveSearch]
    split_ifs with h1 h2 h3
    · exact inv_guard st node thr
    · exact inv_guard st node thr
    · exact inv_guard st node thr
    · have hg : node.material_id ∉ st.visited ∨ node.material_id = "target" := by
        tauto
      cases hsim : sim node.formula nNb with
      | error e =>
        simp only [hsim]
        exact inv_explored hg (inv_nil _)
      | ok neighbors =>
        simp only [hsim]
        exact inv_explored hg (inv_nil _)
  | succ f ih =>
    intro node nNb thr st
    rw [recursiveSearch]
    split_ifs with h1 h2 h3
    · exact inv_guard st node thr
    · exact inv_guard st node thr
    · exact inv_guard st node thr
    · have hg : node.material_id ∉ st.visited ∨ node.material_id = "target" := by
        tauto
      cases hsim : sim node.formula nNb with
      | error e =>
        simp only [hsim]
        exact inv_explored hg (inv_nil _)
      | ok neighbors =>
        simp only [hsim]
        exact inv_explored hg
          (accRun_inv _ (fun nb s => ih _ _ _ s) _ (markAndCheck rl node st))

lemma searchRun_eq (cfg : Config)
    (sim : String → ℕ → Except PyError (List AgentNeighbor))
    (rl : String → Except PyError (List String))
    (target : String) (n : ℕ) :
    searchRun cfg sim rl target n =
      recursiveSearch cfg sim rl cfg.max_depth
        { material_id := "target", formula := target, confidence := 1,
          distance := 0, depth := 0, path := [pathEntryOf target "target"] }
        n 1 { visited := [], recipe_candidates := [] } := rfl

/-!
Admission-threshold lemmas: every call recorded in the trace carries
threshold equal to the entry threshold decayed once per level of depth below
the entry node.
-/

lemma accRun_threshold (cfg : Config)
    (sim : String → ℕ → Except PyError (List AgentNeighbor))
    (rl : String → Except PyError (List String)) (fuel : ℕ)
    (hrec : ∀ (node : SearchNode) (nNb : ℕ) (thr : ℚ) (st : SearchState),
      ∀ e ∈ (recursiveSearch cfg sim rl fuel node nNb thr st).2,
        node.depth ≤ e.depth ∧
          e.threshold = thr * cfg.confidence_decay ^ (e.depth - node.depth)) :
    ∀ (l : List AgentNeighbor) (node : SearchNode) (nNb : ℕ) (thr : ℚ)
      (st : SearchState),
      ∀ e ∈ (accRun
          (fun nb s => recursiveSearch cfg sim rl fuel (childOf node nb)
            (max 5 (nNb / 2)) (qmul thr cfg.confidence_decay) s) l st).2,
        node.depth + 1 ≤ e.depth ∧
          e.threshold = thr * cfg.confidence_decay ^ (e.depth - node.depth) := by
  intro l
  induction l with
  | nil =>
    intro node nNb thr st e he
    rw [accRun] at he
    simp at he
  | cons nb rest ih =>
    intro node nNb thr st e he
    rw [accRun] at he
    rcases List.mem_append.1 he with h | h
    · have h2 := hrec _ _ _ _ e h
      simp only [childOf] at h2
      obtain ⟨hd, ht⟩ := h2
      refine ⟨hd, ?_⟩
      rw [ht, qmul_eq]
      have harith : e.depth - node.depth = (e.depth - (node.depth + 1)) + 1 := by omega
      rw [harith, pow_succ]
      ring
    · exact ih node nNb thr _ e h

lemma recursiveSearch_threshold (cfg : Config)
    (sim : String → ℕ → Except PyError (List AgentNeighbor))
    (rl : String → Except PyError (List String)) :
    ∀ (fuel : ℕ) (node : SearchNode) (nNb : ℕ) (thr : ℚ) (st : SearchState),
      ∀ e ∈ (recursiveSearch cfg sim rl fuel node nNb thr st).2,
        node.depth ≤ e.depth ∧
          e.threshold = thr * cfg.confidence_decay ^ (e.depth - node.depth) := by
  intro fuel
  induction fuel with
  | zero =>
    intro node nNb thr st e he
    rw [recursiveSearch] at he
    split_ifs at he
    · simp at he
      subst he
      simp [entryOf]
    · simp at he
      subst he
      simp [entryOf]
    · simp at he
      subst he
      simp [entryOf]
    · cases hsim : sim node.formula nNb with
      | error er =>
        simp only [hsim] at he
        simp at he
        subst he
        simp [entryOf]
      | ok neighbors =>
        simp only [hsim] at he
        simp at he
        subst he
        simp [entryOf]
  | succ f ih =>
    intro node nNb thr st e he
    rw [recursiveSearch] at he
    split_ifs at he
    · simp at he
      subst he
      simp [entryOf]
    · simp at he
      subst he
      simp [entryOf]
    · simp at he
      subst he
      simp [entryOf]
    · cases hsim : sim node.formula nNb with
      | error er =>
        simp only [hsim] at he
        simp at he
        subst he
        simp [entryOf]
      | ok neighbors =>
        simp only [hsim] at he
        rcases List.mem_cons.1 he with rfl | h
        · simp [entryOf]
        · have h2 := accRun_threshold cfg sim rl f ih _ node nNb thr _ e h
          exact ⟨Nat.le_of_succ_le h2.1, h2.2⟩

lemma query_kwarg_typeError {A : Type} (run : Except PyError A) :
    pyCall SearchAPI_query_params ["n_neighbors"] run = .error .typeError := rfl

lemma init_kwarg_typeError {A : Type} (run : Except PyError A) :
    SynthesisAgent_init_call run = .error .typeError := rfl

lemma headI_mem {α : Type} [Inhabited α] {l : List α} (h : l ≠ []) :
    l.headI ∈ l := by
  cases l with
  | nil => exact absurd rfl h
  | cons a t => simp

lemma scoreCandidates_mem {c : RecipeCandidate} {cands : List RecipeCandidate}
    (hc : c ∈ scoreCandidates cands) :
    c.score = c.confidence / (1 + (0.2 : ℚ) * (c.path_length : ℚ)) := by
  rcases List.mem_map.1 hc with ⟨orig, _, rfl⟩
  simp only [qdiv_eq, qadd_eq, qmul_eq, Rat.divInt_eq_div]
  norm_num

lemma candidatesSorted_subset {c : RecipeCandidate} {cands : List RecipeCandidate}
    (hc : c ∈ candidatesSorted cands) : c ∈ scoreCandidates cands :=
  (List.perm_insertionSort scoreDesc _).subset hc

end SynthModel


open SynthModel

/-- C4: within one search call, no material id other than the synthetic root
id target is explored (marked visited) twice, and the final visited set is
exactly the set of explored non-root ids. -/
theorem C4_no_revisits (cfg : Config)
    (sim : String → ℕ → Except PyError (List AgentNeighbor))
    (rl : String → Except PyError (List String)) (target : String) (n : ℕ) :
    (exploredIds (searchRun cfg sim rl target n).2).Nodup ∧
    ∀ x, x ∈ (searchRun cfg sim rl target n).1.visited ↔
      x ∈ exploredIds (searchRun cfg sim rl target n).2 := by
  have h := recursiveSearch_inv cfg sim rl cfg.max_depth
    { material_id := "target", formula := target, confidence := 1,
      distance := 0, depth := 0, path := [pathEntryOf target "target"] }
    n 1 { visited := [], recipe_candidates := [] }
  rw [searchRun_eq]
  obtain ⟨hm, hn, _⟩ := h
  refine ⟨hn, fun x => ?_⟩
  rw [hm x]
  simp

/-- C5: every call in the traversal log of a search carries admission
threshold confidence_decay raised to the call depth (the root is called with
threshold 1.0 and every recursive call multiplies by confidence_decay), and
for decay strictly between 0 and 1 the thresholds strictly decrease along
increasing depth. -/
theorem C5_threshold_decay (cfg : Config)
    (sim : String → ℕ → Except PyError (List AgentNeighbor))
    (rl : String → Except PyError (List String)) (target : String) (n : ℕ)
    (h0 : 0 < cfg.confidence_decay) (h1 : cfg.confidence_decay < 1) :
    (∀ e ∈ (searchRun cfg sim rl target n).2,
      e.threshold = cfg.confidence_decay ^ e.depth) ∧
    ∀ e ∈ (searchRun cfg sim rl target n).2,
      ∀ g ∈ (searchRun cfg sim rl target n).2,
        e.depth < g.depth → g.threshold < e.threshold := by
  have key : ∀ e ∈ (searchRun cfg sim rl target n).2,
      e.threshold = cfg.confidence_decay ^ e.depth := by
    intro e he
    rw [searchRun_eq] at he
    have h := (recursiveSearch_threshold cfg sim rl cfg.max_depth _ n 1
      { visited := [], recipe_candidates := [] } e he).2
    simpa using h
  refine ⟨key, fun e he g hg hd => ?_⟩
  rw [key e he, key g hg]
  exact pow_lt_pow_right_of_lt_one₀ h0 h1 hd

/-- Witness for C5 at the default configuration and a one-neighbor oracle:
the depth-1 call has a strictly smaller threshold than the depth-0 call, and
the depth-0 threshold is decay to the 0th power. -/
theorem C5_threshold_decay_witness :
    ((searchRun defaultConfig simOne recipesNone "X" 5).2.getD 1 default).threshold <
      ((searchRun defaultConfig simOne recipesNone "X" 5).2.getD 0 default).threshold := by
  have h := C5_threshold_decay defaultConfig simOne recipesNone "X" 5
    (by decide) (by decide)
  exact h.2 _ (by decide) _ (by decide) (by decide)

/-- C2: the constructor call raises TypeError, any query call with the
n_neighbors keyword raises TypeError, with such a similarity lookup every
traversal call logs exactly its own entry (no neighbor expansion anywhere),
and a full search reports no recipes with zero visited materials. -/
theorem C2_similarity_path_typeError :
    (∀ (run : Except PyError Unit),
      SynthesisAgent_init_call run = Except.error PyError.typeError) ∧
    (∀ (run : Except PyError (List AgentNeighbor)),
      pyCall SearchAPI_query_params ["n_neighbors"] run =
        Except.error PyError.typeError) ∧
    (∀ (cfg : Config) (rl : String → Except PyError (List String))
      (run : Except PyError (List AgentNeighbor)) (fuel : ℕ) (node : SearchNode)
      (nNb : ℕ) (thr : ℚ) (st : SearchState),
      ((recursiveSearch cfg
        (fun _ _ => pyCall SearchAPI_query_params ["n_neighbors"] run)
        rl fuel node nNb thr st).2).length = 1) ∧
    ∀ (parse : String → Comp) (cfg : Config)
      (rl : String → Except PyError (List String))
      (run : Except PyError (List AgentNeighbor)) (target : String) (n : ℕ),
      (search parse cfg
        (fun _ _ => pyCall SearchAPI_query_params ["n_neighbors"] run)
        rl target n).status = "no_recipes_found" ∧
      (search parse cfg
        (fun _ _ => pyCall SearchAPI_query_params ["n_neighbors"] run)
        rl target n).visited_materials = 0 := by
  refine ⟨fun run => rfl, fun run => rfl, ?_, ?_⟩
  · intro cfg rl run fuel node nNb thr st
    rw [recursiveSearch]
    split_ifs <;> rfl
  · intro parse cfg rl run target n
    have hstate : (searchRun cfg
        (fun _ _ => pyCall SearchAPI_query_params ["n_neighbors"] run)
        rl target n).1 = { visited := [], recipe_candidates := [] } := by
      rw [searchRun_eq]
      rw [recursiveSearch]
      split_ifs <;> rfl
    unfold search
    rw [hstate]
    exact ⟨rfl, rfl⟩

/-- C3: a mid-traversal lookup failure never escapes: search always returns a
result whose status is no_recipes_found or success, and in the concrete
scenario where the similarity lookup fails for neighbor B while its sibling C
yields a recipe, the search still succeeds using the surviving branch. -/
theorem C3_lookup_failure_isolated :
    (∀ (parse : String → Comp) (cfg : Config)
      (sim : String → ℕ → Except PyError (List AgentNeighbor))
      (rl : String → Except PyError (List String)) (target : String) (n : ℕ),
      (search parse cfg sim rl target n).status = "no_recipes_found" ∨
      (search parse cfg sim rl target n).status = "success") ∧
    (search parseA defaultConfig simSibling recipesSibling "T" 5).status =
      "success" ∧
    (searchRun defaultConfig simSibling recipesSibling "T" 5).1.recipe_candidates.map
      (fun c => c.formula) = ["C"] := by
  refine ⟨?_, by decide, by decide⟩
  intro parse cfg sim rl target n
  unfold search synthesizeResults
  split
  · left; rfl
  · right; rfl




theorem C6_score_formula :
    (∀ (parse : String → Comp) (st : SearchState) (target : String)
      (recs : List Recommendation),
      (synthesizeResults parse st target).recommendations = some recs →
      ∀ rc ∈ recs,
        rc.score = rc.confidence / (1 + (0.2 : ℚ) * (rc.path_length : ℚ))) ∧
    (scoreCandidates stAgg.recipe_candidates).map (fun c => c.score) =
      [Rat.divInt 2 3, Rat.divInt 9 14, Rat.divInt 3 4] ∧
    |Rat.divInt 9 14 - Rat.divInt 642857 1000000| < Rat.divInt 1 1000000 := by
  refine ⟨?_, by decide, ?_⟩
  · intro parse st target recs hrecs rc hrc
    unfold synthesizeResults at hrecs
    split_ifs at hrecs
    · simp only [Option.some.injEq] at hrecs
      subst hrecs
      simp at hrc
    · simp only [Option.some.injEq] at hrecs
      subst hrecs
      rcases List.mem_map.1 hrc with ⟨k, hk, rfl⟩
      dsimp only
      by_cases hgrp :
          (candidatesSorted st.recipe_candidates).filter (fun c => c.formula == k) = []
      · rw [hgrp]
        rw [show (([] : List RecipeCandidate).headI).score = 0 from rfl,
          show (([] : List RecipeCandidate).headI).confidence = 0 from rfl]
        norm_num
      · have hmem := headI_mem hgrp
        have hmem2 := List.mem_of_mem_filter hmem
        exact scoreCandidates_mem (candidatesSorted_subset hmem2)
  · rw [Rat.divInt_eq_div, Rat.divInt_eq_div, Rat.divInt_eq_div]
    rw [abs_sub_lt_iff]
    constructor <;> norm_num
/-- Witness for C6: the first recommendation of the concrete aggregation
satisfies the score formula. -/
theorem C6_score_formula_witness :
    (((synthesizeResults parseA stAgg "T").recommendations.getD []).getD 0
        default).score =
      (((synthesizeResults parseA stAgg "T").recommendations.getD []).getD 0
        default).confidence /
      (1 + (0.2 : ℚ) *
        ((((synthesizeResults parseA stAgg "T").recommendations.getD []).getD 0
          default).path_length : ℚ)) := by
  exact C6_score_formula.1 parseA stAgg "T"
    ((synthesizeResults parseA stAgg "T").recommendations.getD [])
    (by decide) _ (by decide)

/-- C8 counterexample: for target elements A,B and source elements B,C the
code returns similarity 1/2 (dividing by max of the set sizes), while the
intersection over union is 1/3; the claim formula does not hold at this
input. -/
theorem C8_union_counterexample :
    (calculateAdaptation [("A", 1), ("B", 1)] [("B", 1), ("C", 1)]).similarity_score =
      Rat.divInt 1 2 ∧
    (((([("A", (1:ℚ)), ("B", 1)].map (fun p => p.1)).toFinset ∩
        ([("B", (1:ℚ)), ("C", 1)].map (fun p => p.1)).toFinset).card : ℚ) = 1) ∧
    (((([("A", (1:ℚ)), ("B", 1)].map (fun p => p.1)).toFinset ∪
        ([("B", (1:ℚ)), ("C", 1)].map (fun p => p.1)).toFinset).card : ℚ) = 3) ∧
    (calculateAdaptation [("A", 1), ("B", 1)] [("B", 1), ("C", 1)]).similarity_score ≠
      Rat.divInt 1 3 := by decide

/-- C8 amended: the similarity score equals the number of common elements
divided by the larger of the two element-set sizes. -/
theorem C8_similarity_max_denominator (t s : Comp)
    (ht : (t.map (fun p => p.1)).Nodup) (hs : (s.map (fun p => p.1)).Nodup) :
    (calculateAdaptation t s).similarity_score =
      (((t.map (fun p => p.1)).toFinset ∩ (s.map (fun p => p.1)).toFinset).card : ℚ) /
      ((max (t.map (fun p => p.1)).toFinset.card
        (s.map (fun p => p.1)).toFinset.card : ℕ) : ℚ) := by
  unfold calculateAdaptation
  dsimp only
  rw [qdiv_eq]
  have hcommon :
      ((t.map (fun p => p.1)).filter
        (fun e => decide (e ∈ s.map (fun p => p.1)))).length =
      ((t.map (fun p => p.1)).toFinset ∩ (s.map (fun p => p.1)).toFinset).card := by
    rw [← List.toFinset_card_of_nodup (ht.filter _)]
    rw [List.toFinset_filter]
    congr 1
    rw [← Finset.filter_mem_eq_inter]
    apply Finset.filter_congr
    intro x _
    simp [List.mem_toFinset]
  rw [hcommon]
  rw [List.toFinset_card_of_nodup ht, List.toFinset_card_of_nodup hs]

/-- Witness for C8 amended at the concrete two-element compositions. -/
theorem C8_similarity_max_denominator_witness :
    (calculateAdaptation [("A", 1), ("B", 1)] [("B", 1), ("C", 1)]).similarity_score =
      (((([("A", (1:ℚ)), ("B", 1)].map (fun p => p.1)).toFinset ∩
          ([("B", (1:ℚ)), ("C", 1)].map (fun p => p.1)).toFinset).card : ℚ)) /
      ((max ([("A", (1:ℚ)), ("B", 1)].map (fun p => p.1)).toFinset.card
        ([("B", (1:ℚ)), ("C", 1)].map (fun p => p.1)).toFinset.card : ℕ) : ℚ) :=
  C8_similarity_max_denominator _ _ (by decide) (by decide)
/-- C9 counterexample: adapting a formula to itself yields empty added and
removed sets and similarity 1.0, but the stoichiometry_changes mapping is not
empty — it holds a zero-change entry per element. -/
theorem C9_stoich_nonempty_counterexample :
    (calculateAdaptation [("A", 1)] [("A", 1)]).added_elements = [] ∧
    (calculateAdaptation [("A", 1)] [("A", 1)]).removed_elements = [] ∧
    (calculateAdaptation [("A", 1)] [("A", 1)]).similarity_score = 1 ∧
    (calculateAdaptation [("A", 1)] [("A", 1)]).stoichiometry_changes ≠ [] := by
  decide

/-- C9 amended: adapting any nonempty composition to itself yields empty
added and removed element sets, similarity 1.0, and one stoichiometry entry
per element, each with change_percent 0. -/
theorem C9_adaptation_idempotent (comp : Comp) (h : comp ≠ []) :
    (calculateAdaptation comp comp).added_elements = [] ∧
    (calculateAdaptation comp comp).removed_elements = [] ∧
    (calculateAdaptation comp comp).similarity_score = 1 ∧
    (calculateAdaptation comp comp).stoichiometry_changes.map (fun p => p.1) =
      comp.map (fun p => p.1) ∧
    ∀ p ∈ (calculateAdaptation comp comp).stoichiometry_changes,
      p.2.change_percent = 0 := by
  have hflt : (comp.map (fun p => p.1)).filter
      (fun e => decide (e ∈ comp.map (fun p => p.1))) = comp.map (fun p => p.1) :=
    List.filter_eq_self.2 (fun a ha => by simpa using ha)
  unfold calculateAdaptation
  dsimp only
  refine ⟨?_, ?_, ?_, ?_, ?_⟩
  · simp
  · simp
  · rw [hflt, qdiv_eq]
    rw [max_self]
    have hlen : (comp.map (fun p => p.1)).length ≠ 0 := by
      simpa using h
    rw [div_self (by exact_mod_cast hlen)]
  · rw [hflt, List.map_map]
    simp
  · intro p hp
    rw [hflt] at hp
    rcases List.mem_map.1 hp with ⟨el, _, rfl⟩
    dsimp only
    split_ifs with hsr
    · rw [qsub_eq, sub_self]
      rw [show qdiv 0 (atomicFraction comp el) = 0 / (atomicFraction comp el) from
        qdiv_eq 0 _]
      rw [zero_div]
      decide
    · decide

/-- C10 counterexample: a search that collects no recipes returns status
no_recipes_found with the target, a message and the visited count — and a
recommendations key is present, holding the empty list, contradicting the
claimed absence. -/
theorem C10_recommendations_present_counterexample :
    (search parseA defaultConfig simOne recipesNone "X" 5).status =
      "no_recipes_found" ∧
    (search parseA defaultConfig simOne recipesNone "X" 5).visited_materials = 1 ∧
    (search parseA defaultConfig simOne recipesNone "X" 5).message =
      some "No synthesis recipes found in recursive search" ∧
    (search parseA defaultConfig simOne recipesNone "X" 5).recommendations =
      some [] ∧
    (search parseA defaultConfig simOne recipesNone "X" 5).recommendations ≠
      none := by decide

/-- C10 amended: whenever a search reports no_recipes_found, the result
carries the target, the visited-material count, the fixed message, a
recommendations key holding the empty list, and no total_candidates or
best_guess keys. -/
theorem C10_no_recipes_result (parse : String → Comp) (cfg : Config)
    (sim : String → ℕ → Except PyError (List AgentNeighbor))
    (rl : String → Except PyError (List String)) (target : String) (n : ℕ)
    (h : (search parse cfg sim rl target n).status = "no_recipes_found") :
    (search parse cfg sim rl target n).target = target ∧
    (search parse cfg sim rl target n).visited_materials =
      (searchRun cfg sim rl target n).1.visited.length ∧
    (search parse cfg sim rl target n).message =
      some "No synthesis recipes found in recursive search" ∧
    (search parse cfg sim rl target n).recommendations = some [] ∧
    (search parse cfg sim rl target n).total_candidates = none ∧
    (search parse cfg sim rl target n).best_guess = none := by
  unfold search synthesizeResults at h ⊢
  split_ifs at h ⊢
  · exact ⟨rfl, rfl, rfl, rfl, rfl, rfl⟩
  · dsimp only at h
    exact absurd h (by decide)

/-- Witness for C10 amended at the concrete no-recipe scenario. -/
theorem C10_no_recipes_result_witness :
    (search parseA defaultConfig simOne recipesNone "X" 5).target = "X" ∧
    (search parseA defaultConfig simOne recipesNone "X" 5).recommendations =
      some [] := by
  have h := C10_no_recipes_result parseA defaultConfig simOne recipesNone "X" 5
    (by decide)
  exact ⟨h.1, h.2.2.2.1⟩
/-- Witness for C9 amended at a concrete two-element composition. -/
theorem C9_adaptation_idempotent_witness :
    (calculateAdaptation [("A", 1), ("B", 2)] [("A", 1), ("B", 2)]).added_elements =
      [] ∧
    (calculateAdaptation [("A", 1), ("B", 2)] [("A", 1), ("B", 2)]).similarity_score =
      1 := by
  have h := C9_adaptation_idempotent [("A", 1), ("B", 2)]
    (by exact List.cons_ne_nil _ _)
  exact ⟨h.1, h.2.2.1⟩
namespace SynthModel

lemma neighborDict_lookup_confidence (m f : String) (x : ℚ) :
    (([("material_id", PyVal.s m), ("formula", PyVal.s f),
       ("distance", PyVal.q x)] : PyDict).lookup "confidence") = none := rfl

lemma neighborDict_lookup_distance (m f : String) (x : ℚ) :
    (([("material_id", PyVal.s m), ("formula", PyVal.s f),
       ("distance", PyVal.q x)] : PyDict).lookup "distance") = some (PyVal.q x) := rfl

end SynthModel

/-- C1 amended: query takes no per-call neighbor count; with the
construction-time count 1 it raises TypeError (the squeezed kneighbors
arrays are 0-d and zip cannot iterate them), with count 0 or above the
corpus size kneighbors raises ValueError, and whenever it does return a
list, that list holds exactly n_neighbors records ranked ascending by
distance in the normalized space, each carrying material_id, formula and
distance — no confidence annotation. -/
theorem C1_query_ranked_unannotated (api : SearchAPIModel) (input_data : String) :
    (api.n_neighbors = 1 → 1 ≤ api.corpus.length →
      api.query input_data = Except.error PyError.typeError) ∧
    (api.corpus.length < api.n_neighbors →
      api.query input_data = Except.error PyError.valueError) ∧
    ∀ out, api.query input_data = Except.ok out →
      (∀ d ∈ out,
        d.lookup "confidence" = none ∧
        (d.lookup "material_id").isSome ∧
        (d.lookup "formula").isSome ∧
        (d.lookup "distance").isSome) ∧
      (out.filterMap (fun d =>
        match d.lookup "distance" with
        | some (PyVal.q x) => some x
        | _ => none)).Pairwise (fun a b => a ≤ b) ∧
      out.length = api.n_neighbors := by
  refine ⟨?_, ?_, ?_⟩
  · intro h1 hlen
    unfold SearchAPIModel.query
    have hg : ¬(api.n_neighbors = 0 ∨ api.corpus.length < api.n_neighbors) := by
      omega
    rw [if_neg hg, if_pos h1]
  · intro hlt
    unfold SearchAPIModel.query
    rw [if_pos (Or.inr hlt)]
  · intro out hout
    unfold SearchAPIModel.query at hout
    by_cases hg : api.n_neighbors = 0 ∨ api.corpus.length < api.n_neighbors
    · rw [if_pos hg] at hout
      simp at hout
    by_cases h1 : api.n_neighbors = 1
    · rw [if_neg hg, if_pos h1] at hout
      simp at hout
    rw [if_neg hg, if_neg h1] at hout
    simp only [Except.ok.injEq] at hout
    subst hout
    refine ⟨?_, ?_, ?_⟩
    · intro d hd
      rcases List.mem_map.1 hd with ⟨p, hp, rfl⟩
      exact ⟨rfl, rfl, rfl, rfl⟩
    · rw [List.filterMap_map]
      have hfc : ((fun d : PyDict =>
          match d.lookup "distance" with
          | some (PyVal.q x) => some x
          | _ => none) ∘ (fun p : CorpusEntry × ℚ =>
            ([("material_id", PyVal.s p.1.material_id),
              ("formula", PyVal.s p.1.formula),
              ("distance", PyVal.q p.2)] : PyDict))) =
          (some ∘ (fun p : CorpusEntry × ℚ => p.2)) := rfl
      rw [hfc, List.filterMap_eq_map]
      have hsorted : (api.ranked input_data).Pairwise distAsc :=
        List.sorted_insertionSort distAsc _
      have htake : ((api.ranked input_data).take api.n_neighbors).Pairwise distAsc :=
        List.Pairwise.sublist (List.take_sublist _ _) hsorted
      exact List.pairwise_map.2 htake
    · rw [List.length_map, List.length_take]
      have hlen2 : (api.ranked input_data).length = api.corpus.length := by
        unfold SearchAPIModel.ranked
        rw [(List.perm_insertionSort _ _).length_eq, List.length_map]
      rw [hlen2]
      omega

/-- C1 counterexample: on the two-entry index, where the source genuinely
returns (count 2, within the corpus size, no 0-d squeeze), the query yields
two neighbor records and neither carries any confidence annotation,
refuting the claimed confidence = exp(-distance/3) field. -/
theorem C1_no_confidence_counterexample :
    (c1api.query "A").toOption.isSome = true ∧
    ((c1api.query "A").toOption.getD []).length = 2 ∧
    ((c1api.query "A").toOption.getD []).map (fun d => d.lookup "confidence") =
      [none, none] := by decide
namespace SynthModel

/-- The group of a formula key within a candidate list (the defaultdict
bucket). -/
def grp (l : List RecipeCandidate) (k : String) : List RecipeCandidate :=
  l.filter (fun c => c.formula == k)

lemma keysOf_mem {k : String} : ∀ {l : List RecipeCandidate},
    k ∈ keysOf l ↔ k ∈ l.map (fun c => c.formula)
  | [] => by simp [keysOf]
  | c :: cs => by
    rw [keysOf]
    by_cases hk : k = c.formula
    · simp [hk]
    · simp only [List.mem_cons, List.mem_filter, List.map_cons, bne_iff_ne]
      constructor
      · rintro (h | ⟨h, _⟩)
        · exact Or.inl h
        · exact Or.inr (keysOf_mem.1 h)
      · rintro (h | h)
        · exact Or.inl h
        · exact Or.inr ⟨keysOf_mem.2 h, hk⟩

lemma grp_ne_nil {l : List RecipeCandidate} {k : String} (hk : k ∈ keysOf l) :
    grp l k ≠ [] := by
  rcases List.mem_map.1 (keysOf_mem.1 hk) with ⟨c, hc, rfl⟩
  exact List.ne_nil_of_mem (List.mem_filter.2 ⟨hc, beq_self_eq_true _⟩)

lemma headI_score_max {l : List RecipeCandidate}
    (hl : l.Pairwise scoreDesc) : ∀ x ∈ l, x.score ≤ l.headI.score := by
  cases l with
  | nil => intro x hx; simp at hx
  | cons h t =>
    intro x hx
    rcases List.mem_cons.1 hx with rfl | hx
    · simp
    · exact List.rel_of_pairwise_cons hl hx

lemma grp_headI_score_max {l : List RecipeCandidate}
    (hl : l.Pairwise scoreDesc) {k : String} :
    ∀ c ∈ l, c.formula = k → c.score ≤ (grp l k).headI.score := by
  intro c hc hck
  have hcg : c ∈ grp l k :=
    List.mem_filter.2 ⟨hc, by rw [hck]; exact beq_self_eq_true _⟩
  exact headI_score_max (List.Pairwise.sublist (List.filter_sublist _) hl) c hcg

lemma grp_headI_mem {l : List RecipeCandidate} {k : String}
    (h : grp l k ≠ []) :
    (grp l k).headI ∈ l ∧ (grp l k).headI.formula = k := by
  have hm := headI_mem h
  have := List.mem_filter.1 hm
  exact ⟨this.1, by simpa using this.2⟩

lemma grp_cons_self (c : RecipeCandidate) (cs : List RecipeCandidate) :
    grp (c :: cs) c.formula = c :: grp cs c.formula := by
  rw [grp, List.filter_cons, if_pos (beq_self_eq_true _)]
  rfl

lemma grp_cons_ne {c : RecipeCandidate} {cs : List RecipeCandidate} {k : String}
    (hk : k ≠ c.formula) : grp (c :: cs) k = grp cs k := by
  rw [grp, List.filter_cons, if_neg]
  · rfl
  · simp [beq_eq_false_iff_ne.2 (Ne.symm hk)]

lemma keysOf_rep_pairwise : ∀ {l : List RecipeCandidate},
    l.Pairwise scoreDesc →
    (keysOf l).Pairwise
      (fun k1 k2 => (grp l k2).headI.score ≤ (grp l k1).headI.score)
  | [] => fun _ => by simp [keysOf]
  | c :: cs => fun hl => by
    have hd : ∀ x ∈ cs, scoreDesc c x := fun x hx =>
      List.rel_of_pairwise_cons hl hx
    have htl : cs.Pairwise scoreDesc := List.Pairwise.of_cons hl
    rw [keysOf]
    refine List.Pairwise.cons ?_ ?_
    · intro k hkf
      have hkcs : k ∈ keysOf cs := (List.mem_filter.1 hkf).1
      have hkne : k ≠ c.formula := by
        have := (List.mem_filter.1 hkf).2
        simpa [bne_iff_ne] using this
      rw [grp_cons_ne hkne, grp_cons_self]
      simp only [List.headI_cons]
      have hgne := grp_ne_nil hkcs
      have hmem := grp_headI_mem hgne
      exact hd _ hmem.1
    · have hIH := keysOf_rep_pairwise htl
      have hsub : ((keysOf cs).filter (fun k => k != c.formula)).Sublist (keysOf cs) :=
        List.filter_sublist _
      refine List.Pairwise.imp_of_mem ?_ (List.Pairwise.sublist hsub hIH)
      intro k1 k2 h1 h2 hrel
      have hne1 : k1 ≠ c.formula := by
        have := (List.mem_filter.1 h1).2
        simpa [bne_iff_ne] using this
      have hne2 : k2 ≠ c.formula := by
        have := (List.mem_filter.1 h2).2
        simpa [bne_iff_ne] using this
      rw [grp_cons_ne hne1, grp_cons_ne hne2]
      exact hrel

end SynthModel
open SynthModel

/-- C7: whenever candidates exist, the recommendations are exactly the top 5
formula groups of the score-sorted candidate list: one per group in
representative-score order, each representative being a highest-scoring group
member, and every group left out scores no higher than any selected
representative. -/
theorem C7_top5_groups (parse : String → Comp) (st : SearchState)
    (target : String) (hne : st.recipe_candidates ≠ []) :
    ∀ recs, (synthesizeResults parse st target).recommendations = some recs →
      recs.length =
        min 5 (keysOf (candidatesSorted st.recipe_candidates)).length ∧
      (candidatesSorted st.recipe_candidates).Perm
        (scoreCandidates st.recipe_candidates) ∧
      (recs.map (fun r => r.score)).Pairwise (fun a b => b ≤ a) ∧
      (∀ rc ∈ recs, ∃ c ∈ candidatesSorted st.recipe_candidates,
        c.formula = rc.source_material ∧ c.score = rc.score ∧
        c.material_id = rc.material_id) ∧
      (∀ rc ∈ recs, ∀ c ∈ candidatesSorted st.recipe_candidates,
        c.formula = rc.source_material → c.score ≤ rc.score) ∧
      (∀ c ∈ candidatesSorted st.recipe_candidates,
        c.formula ∉ recs.map (fun r => r.source_material) →
        ∀ rc ∈ recs, c.score ≤ rc.score) := by
  intro recs hrecs
  have hemp : ¬st.recipe_candidates.isEmpty = true := by
    simpa [List.isEmpty_iff] using hne
  unfold synthesizeResults at hrecs
  rw [if_neg hemp] at hrecs
  simp only [Option.some.injEq] at hrecs
  subst hrecs
  have hsort : (candidatesSorted st.recipe_candidates).Pairwise scoreDesc :=
    List.sorted_insertionSort scoreDesc _
  have hrep := keysOf_rep_pairwise hsort
  refine ⟨?_, List.perm_insertionSort scoreDesc _, ?_, ?_, ?_, ?_⟩
  · rw [List.length_map, List.length_take]
  · rw [List.map_map]
    have htake := List.Pairwise.sublist (List.take_sublist 5 _) hrep
    exact List.pairwise_map.2 htake
  · intro rc hrc
    rcases List.mem_map.1 hrc with ⟨k, hk, rfl⟩
    have hkk : k ∈ keysOf (candidatesSorted st.recipe_candidates) :=
      (List.take_sublist 5 _).subset hk
    have hgne := grp_ne_nil hkk
    have hmem := grp_headI_mem hgne
    exact ⟨_, hmem.1, hmem.2, rfl, rfl⟩
  · intro rc hrc c hc hck
    rcases List.mem_map.1 hrc with ⟨k, hk, rfl⟩
    exact grp_headI_score_max hsort c hc hck
  · intro c hc hcnot rc hrc
    rcases List.mem_map.1 hrc with ⟨k1, hk1, rfl⟩
    have hckeys : c.formula ∈ keysOf (candidatesSorted st.recipe_candidates) :=
      keysOf_mem.2 (List.mem_map_of_mem _ hc)
    have hcdrop : c.formula ∈
        (keysOf (candidatesSorted st.recipe_candidates)).drop 5 := by
      by_contra hnd
      have htk : c.formula ∈
          List.take 5 (keysOf (candidatesSorted st.recipe_candidates)) := by
        have hsplit := List.take_append_drop 5
          (keysOf (candidatesSorted st.recipe_candidates))
        rw [← hsplit] at hckeys
        rcases List.mem_append.1 hckeys with h | h
        · exact h
        · exact absurd h hnd
      exact hcnot (List.mem_map.2 ⟨_, List.mem_map.2 ⟨c.formula, htk, rfl⟩, rfl⟩)
    have hrep2 : ((keysOf (candidatesSorted st.recipe_candidates)).take 5 ++
        (keysOf (candidatesSorted st.recipe_candidates)).drop 5).Pairwise
          (fun k1 k2 =>
            (grp (candidatesSorted st.recipe_candidates) k2).headI.score ≤
            (grp (candidatesSorted st.recipe_candidates) k1).headI.score) := by
      rw [List.take_append_drop]
      exact hrep
    have h1 := (List.pairwise_append.1 hrep2).2.2 k1 hk1 c.formula hcdrop
    have h2 := grp_headI_score_max hsort c hc rfl
    exact le_trans h2 h1
/-- Witness for C7 at the concrete three-candidate state: two groups are
formed, and the recommendation scores are in non-increasing order. -/
theorem C7_top5_groups_witness :
    ((synthesizeResults parseA stAgg "T").recommendations.getD []).length =
      min 5 (keysOf (candidatesSorted stAgg.recipe_candidates)).length ∧
    ((((synthesizeResults parseA stAgg "T").recommendations.getD []).map
      (fun r => r.score)).Pairwise (fun a b => b ≤ a)) := by
  have h := C7_top5_groups parseA stAgg "T" (by decide)
    ((synthesizeResults parseA stAgg "T").recommendations.getD []) (by decide)
  exact ⟨h.1, h.2.2.1⟩

/-- Witness for C1 amended: the count-1 index raises TypeError exactly where
the source crashes, and the first record returned by the two-entry index has
no confidence annotation. -/
theorem C1_query_ranked_unannotated_witness :
    c1apiSingle.query "A" = Except.error PyError.typeError ∧
    (((c1api.query "A").toOption.getD []).getD 0 []).lookup "confidence" =
      none := by
  constructor
  · exact (C1_query_ranked_unannotated c1apiSingle "A").1 rfl (by decide)
  · have hok : c1api.query "A" =
        Except.ok ((c1api.query "A").toOption.getD []) := by decide
    have h := (C1_query_ranked_unannotated c1api "A").2.2
      ((c1api.query "A").toOption.getD []) hok
    exact (h.1 _ (by decide)).1

/-- Witness for C2 on a concrete traversal call: the trace holds exactly the
entry of the call itself, so no neighbor expansion happened. -/
theorem C2_similarity_path_typeError_witness :
    ((recursiveSearch defaultConfig
      (fun _ _ => pyCall SearchAPI_query_params ["n_neighbors"] (.ok []))
      recipesNone 3
      { material_id := "target", formula := "X", confidence := 1, distance := 0,
        depth := 0, path := ["X (target)"] } 5 1
      { visited := [], recipe_candidates := [] }).2).length = 1 :=
  C2_similarity_path_typeError.2.2.1 defaultConfig recipesNone (.ok []) 3 _ 5 1 _

/-- Witness for C3 on the sibling-failure scenario. -/
theorem C3_lookup_failure_isolated_witness :
    (search parseA defaultConfig simSibling recipesSibling "T" 5).status =
      "no_recipes_found" ∨
    (search parseA defaultConfig simSibling recipesSibling "T" 5).status =
      "success" :=
  C3_lookup_failure_isolated.1 parseA defaultConfig simSibling recipesSibling "T" 5

/-- Witness for C4 on the one-neighbor oracle. -/
theorem C4_no_revisits_witness :
    (exploredIds (searchRun defaultConfig simOne recipesNone "X" 5).2).Nodup :=
  (C4_no_revisits defaultConfig simOne recipesNone "X" 5).1
